import Mathlib

/-
Verification of the ambient-instrument runtime core:
the drag/momentum interaction engine (src/interaction/useDrag.ts, the
onDrag/onCommit variant), the drift modulation engine
(src/engine/DriftConductor.ts) and the module lifecycle contract with its
reference module (ModuleInstance base class and DroneOscillator).

The drag engine performs only field arithmetic and comparisons, so it is
embedded over the rationals and fully executable.  The drift engine and the
parameter-mapping functions use sin and real exponentiation, so they are
embedded over the reals.
-/

/- ### Drag/momentum interaction engine (useDrag.ts, second hook) -/

/-- Source `clamp`: clamp a value between 0 and 1. -/
def clamp01 (v : ℚ) : ℚ := max 0 (min 1 v)

/-- Configuration knobs of `useDrag` with the source defaults
(`sensitivity = 0.005`, `momentum = true`, `momentumDecay = 0.88`). -/
structure DragConfig where
  sensitivity : ℚ
  momentum : Bool
  momentumDecay : ℚ

/-- The hook's mutable refs: `dragState.current.isDragging`, `startY`,
`startValue`, plus `valueRef`, `velocityRef`, `lastYRef` and whether
`animationRef.current` holds a scheduled animation frame. -/
structure DragHookState where
  isDraggingFlag : Bool
  startY : ℚ
  startValue : ℚ
  valueRef : ℚ
  velocityRef : ℚ
  lastY : ℚ
  animActive : Bool
deriving DecidableEq

/-- One observable output call of the hook: `onDrag` (immediate path) or
`onCommit` (persistence path). -/
inductive Emit where
  | drag (v : ℚ)
  | commit (v : ℚ)
deriving DecidableEq

/-- Whether an emitted call went to the commit/persistence path. -/
def Emit.isCommit : Emit → Bool
  | .commit _ => true
  | .drag _ => false

/-- Source `handleDragStart`: cancel momentum, anchor the session. -/
def handleDragStart (s : DragHookState) (clientY : ℚ) : DragHookState × List Emit :=
  ({ isDraggingFlag := true
     startY := clientY
     startValue := s.valueRef
     valueRef := s.valueRef
     velocityRef := 0
     lastY := clientY
     animActive := false }, [])

/-- Source `handleDragMove`: recompute the value from the anchor, update the
exponentially smoothed velocity, and emit on the immediate path only. -/
def handleDragMove (cfg : DragConfig) (s : DragHookState) (clientY : ℚ) :
    DragHookState × List Emit :=
  if s.isDraggingFlag = false then (s, [])
  else
    let deltaY := s.startY - clientY
    let newValue := clamp01 (s.startValue + deltaY * cfg.sensitivity)
    let instantVelocity := (s.lastY - clientY) * cfg.sensitivity
    let newVelocity := instantVelocity * 0.3 + s.velocityRef * 0.7
    ({ s with velocityRef := newVelocity, lastY := clientY, valueRef := newValue },
      [Emit.drag newValue])

/-- Source `handleDragEnd`: leave the dragging state; either schedule the
momentum animation (velocity above the release threshold 0.001) or commit
the current value immediately. -/
def handleDragEnd (cfg : DragConfig) (s : DragHookState) : DragHookState × List Emit :=
  if s.isDraggingFlag = false then (s, [])
  else
    let s1 := { s with isDraggingFlag := false }
    if cfg.momentum = true ∧ 0.001 < |s1.velocityRef| then
      ({ s1 with animActive := true }, [])
    else
      (s1, [Emit.commit s1.valueRef])

/-- Source `animateMomentum`, one invocation: below the stop threshold
0.0005 it zeroes the velocity, commits the settled value and stops;
otherwise it advances the value, emits on the immediate path, decays the
velocity by `momentumDecay` and reschedules itself. -/
def animateMomentumStep (cfg : DragConfig) (s : DragHookState) : DragHookState × List Emit :=
  if |s.velocityRef| < 0.0005 then
    ({ s with velocityRef := 0, animActive := false }, [Emit.commit s.valueRef])
  else
    let newValue := clamp01 (s.valueRef + s.velocityRef)
    ({ s with valueRef := newValue, velocityRef := s.velocityRef * cfg.momentumDecay },
      [Emit.drag newValue])

/-- The momentum animation loop: repeatedly run `animateMomentumStep` while a
frame is scheduled, collecting the emitted calls.  `fuel` bounds the number
of frames considered; the loop has genuinely stopped once `animActive` is
false in the resulting state. -/
def runMomentum (cfg : DragConfig) : ℕ → DragHookState → DragHookState × List Emit
  | 0, s => (s, [])
  | fuel + 1, s =>
    if s.animActive = false then (s, [])
    else
      let r := animateMomentumStep cfg s
      let rest := runMomentum cfg fuel r.1
      (rest.1, r.2 ++ rest.2)

/-- Run a list of pointer-move events through `handleDragMove`. -/
def runMoves (cfg : DragConfig) : DragHookState → List ℚ → DragHookState × List Emit
  | s, [] => (s, [])
  | s, y :: ys =>
    let r := handleDragMove cfg s y
    let rest := runMoves cfg r.1 ys
    (rest.1, r.2 ++ rest.2)

/-- One full drag session: pointer-down at `y0`, the pointer moves, pointer-up,
then the momentum animation runs for at most `fuel` frames. -/
def runSession (cfg : DragConfig) (s0 : DragHookState) (y0 : ℚ) (moves : List ℚ)
    (fuel : ℕ) : DragHookState × List Emit :=
  let r1 := handleDragStart s0 y0
  let r2 := runMoves cfg r1.1 moves
  let r3 := handleDragEnd cfg r2.1
  let r4 := runMomentum cfg fuel r3.1
  (r4.1, r1.2 ++ r2.2 ++ r3.2 ++ r4.2)

/-- Unfolded form of `runSession` for reasoning about its pieces. -/
lemma runSession_eq (cfg : DragConfig) (s0 : DragHookState) (y0 : ℚ) (moves : List ℚ)
    (fuel : ℕ) :
    runSession cfg s0 y0 moves fuel
      = ((runMomentum cfg fuel
            (handleDragEnd cfg (runMoves cfg (handleDragStart s0 y0).1 moves).1).1).1,
         (handleDragStart s0 y0).2 ++ (runMoves cfg (handleDragStart s0 y0).1 moves).2
           ++ (handleDragEnd cfg (runMoves cfg (handleDragStart s0 y0).1 moves).1).2
           ++ (runMomentum cfg fuel
                (handleDragEnd cfg (runMoves cfg (handleDragStart s0 y0).1 moves).1).1).2) :=
  rfl

/-- Once no animation frame is scheduled, the momentum loop does nothing. -/
lemma runMomentum_inactive (cfg : DragConfig) (fuel : ℕ) (s : DragHookState)
    (h : s.animActive = false) : runMomentum cfg fuel s = (s, []) := by
  cases fuel with
  | zero => rfl
  | succ n => simp [runMomentum, h]

/-- One unrolling of the momentum loop while a frame is scheduled. -/
lemma runMomentum_succ_active (cfg : DragConfig) (fuel : ℕ) (s : DragHookState)
    (ha : s.animActive = true) :
    runMomentum cfg (fuel + 1) s
      = ((runMomentum cfg fuel (animateMomentumStep cfg s).1).1,
         (animateMomentumStep cfg s).2
           ++ (runMomentum cfg fuel (animateMomentumStep cfg s).1).2) := by
  rw [runMomentum, ha]
  simp

/-- If the geometric velocity sequence drops below the stop threshold within
`n` decays, the momentum loop stops within `n + 1` frames and the calls it
emitted contain exactly one commit, carrying the settled value. -/
lemma runMomentum_settles (cfg : DragConfig) (hd : 0 < cfg.momentumDecay) :
    ∀ (n : ℕ) (s : DragHookState), s.animActive = true →
      |s.velocityRef| * cfg.momentumDecay ^ n < 0.0005 →
      (runMomentum cfg (n + 1) s).1.animActive = false ∧
      (runMomentum cfg (n + 1) s).2.filter Emit.isCommit
        = [Emit.commit (runMomentum cfg (n + 1) s).1.valueRef] := by
  intro n
  induction n with
  | zero =>
    intro s ha hv
    rw [pow_zero, mul_one] at hv
    simp [runMomentum, ha, animateMomentumStep, hv, Emit.isCommit]
  | succ m ih =>
    intro s ha hv
    by_cases hsmall : |s.velocityRef| < 0.0005
    · have hstep : animateMomentumStep cfg s
          = ({ s with velocityRef := 0, animActive := false }, [Emit.commit s.valueRef]) := by
        simp [animateMomentumStep, hsmall]
      have hrest := runMomentum_inactive cfg (m + 1)
        ({ s with velocityRef := 0, animActive := false }) rfl
      rw [runMomentum_succ_active cfg (m + 1) s ha, hstep, hrest]
      simp [Emit.isCommit]
    · have hstep : animateMomentumStep cfg s
          = ({ s with
                valueRef := clamp01 (s.valueRef + s.velocityRef)
                velocityRef := s.velocityRef * cfg.momentumDecay },
             [Emit.drag (clamp01 (s.valueRef + s.velocityRef))]) := by
        simp [animateMomentumStep, hsmall]
      have hv2 : |s.velocityRef * cfg.momentumDecay| * cfg.momentumDecay ^ m < 0.0005 := by
        rw [abs_mul, abs_of_pos hd]
        calc |s.velocityRef| * cfg.momentumDecay * cfg.momentumDecay ^ m
            = |s.velocityRef| * cfg.momentumDecay ^ (m + 1) := by ring
          _ < 0.0005 := hv
      have hrec := ih ({ s with
          valueRef := clamp01 (s.valueRef + s.velocityRef)
          velocityRef := s.velocityRef * cfg.momentumDecay }) ha hv2
      rw [runMomentum_succ_active cfg (m + 1) s ha, hstep]
      exact ⟨hrec.1, by simp [Emit.isCommit, hrec.2]⟩

/-- The geometrically decaying velocity drops below any positive bound. -/
lemma exists_decay_below (v r eps : ℚ) (h0 : 0 < r) (h1 : r < 1) (he : 0 < eps) :
    ∃ n : ℕ, |v| * r ^ n < eps := by
  rcases eq_or_ne v 0 with rfl | hv
  · exact ⟨0, by simpa using he⟩
  · have hva : 0 < |v| := abs_pos.mpr hv
    obtain ⟨n, hn⟩ := exists_pow_lt_of_lt_one (div_pos he hva) h1
    exact ⟨n, by rwa [lt_div_iff₀ hva, mul_comm] at hn⟩

/-- The immediate path (`handleDragMove`) never emits a commit. -/
lemma handleDragMove_noCommit (cfg : DragConfig) (s : DragHookState) (y : ℚ) :
    (handleDragMove cfg s y).2.filter Emit.isCommit = [] := by
  by_cases h : s.isDraggingFlag = false <;> simp [handleDragMove, h, Emit.isCommit]

/-- A run of pointer moves emits no commit. -/
lemma runMoves_noCommit (cfg : DragConfig) :
    ∀ (ms : List ℚ) (s : DragHookState),
      (runMoves cfg s ms).2.filter Emit.isCommit = [] := by
  intro ms
  induction ms with
  | nil => intro s; rfl
  | cons y ys ih =>
    intro s
    simp [runMoves, List.filter_append, handleDragMove_noCommit, ih]

/-- Pointer moves change neither the dragging flag nor the scheduled-frame
flag. -/
lemma runMoves_flags (cfg : DragConfig) :
    ∀ (ms : List ℚ) (s : DragHookState),
      (runMoves cfg s ms).1.isDraggingFlag = s.isDraggingFlag ∧
      (runMoves cfg s ms).1.animActive = s.animActive := by
  intro ms
  induction ms with
  | nil => intro s; exact ⟨rfl, rfl⟩
  | cons y ys ih =>
    intro s
    have hmove : (handleDragMove cfg s y).1.isDraggingFlag = s.isDraggingFlag ∧
        (handleDragMove cfg s y).1.animActive = s.animActive := by
      by_cases h : s.isDraggingFlag = false <;> simp [handleDragMove, h]
    have := ih (handleDragMove cfg s y).1
    exact ⟨by rw [runMoves, this.1, hmove.1], by rw [runMoves, this.2, hmove.2]⟩

/-- C5: across one full drag session with momentum, there is a momentum-frame
budget under which the loop settles, and the emitted calls then contain
exactly one commit, carrying the final settled value; the immediate path
`handleDragMove` never emits a commit. -/
theorem drag_session_single_commit (cfg : DragConfig) (s0 : DragHookState) (y0 : ℚ)
    (moves : List ℚ) (hd0 : 0 < cfg.momentumDecay) (hd1 : cfg.momentumDecay < 1) :
    (∃ fuel : ℕ,
      (runSession cfg s0 y0 moves fuel).1.animActive = false ∧
      (runSession cfg s0 y0 moves fuel).2.filter Emit.isCommit
        = [Emit.commit (runSession cfg s0 y0 moves fuel).1.valueRef]) ∧
    ∀ (s : DragHookState) (y : ℚ),
      (handleDragMove cfg s y).2.filter Emit.isCommit = [] := by
  refine ⟨?_, handleDragMove_noCommit cfg⟩
  obtain ⟨hDrag, hAnim⟩ := runMoves_flags cfg moves (handleDragStart s0 y0).1
  have hDrag2 : (runMoves cfg (handleDragStart s0 y0).1 moves).1.isDraggingFlag = true := by
    rw [hDrag]; rfl
  have hAnim2 : (runMoves cfg (handleDragStart s0 y0).1 moves).1.animActive = false := by
    rw [hAnim]; rfl
  have hMovesFilter := runMoves_noCommit cfg moves (handleDragStart s0 y0).1
  by_cases hb : cfg.momentum = true ∧
      (0.001 : ℚ) < |(runMoves cfg (handleDragStart s0 y0).1 moves).1.velocityRef|
  · -- momentum branch: the release schedules the animation
    have hend : handleDragEnd cfg (runMoves cfg (handleDragStart s0 y0).1 moves).1
        = ({ (runMoves cfg (handleDragStart s0 y0).1 moves).1 with
             isDraggingFlag := false, animActive := true }, []) := by
      simp only [handleDragEnd, hDrag2]
      simp [hb.1, hb.2]
    obtain ⟨n, hn⟩ := exists_decay_below
      (runMoves cfg (handleDragStart s0 y0).1 moves).1.velocityRef
      cfg.momentumDecay 0.0005 hd0 hd1 (by norm_num)
    have hset : (handleDragEnd cfg (runMoves cfg (handleDragStart s0 y0).1 moves).1).1.animActive
        = true := by rw [hend]
    have hvel : |(handleDragEnd cfg
          (runMoves cfg (handleDragStart s0 y0).1 moves).1).1.velocityRef|
        * cfg.momentumDecay ^ n < 0.0005 := by rw [hend]; exact hn
    have hsettle := runMomentum_settles cfg hd0 n
      (handleDragEnd cfg (runMoves cfg (handleDragStart s0 y0).1 moves).1).1 hset hvel
    have hend2 : (handleDragEnd cfg (runMoves cfg (handleDragStart s0 y0).1 moves).1).2 = [] := by
      rw [hend]
    refine ⟨n + 1, ?_, ?_⟩
    · rw [runSession_eq]; exact hsettle.1
    · rw [runSession_eq]
      simp only [List.filter_append, hMovesFilter, hend2]
      simpa using hsettle.2
  · -- immediate-commit branch
    have hend : handleDragEnd cfg (runMoves cfg (handleDragStart s0 y0).1 moves).1
        = ({ (runMoves cfg (handleDragStart s0 y0).1 moves).1 with isDraggingFlag := false },
           [Emit.commit (runMoves cfg (handleDragStart s0 y0).1 moves).1.valueRef]) := by
      simp only [handleDragEnd, hDrag2]
      split
      · rename_i hcond
        exact absurd hcond (by simp)
      · rfl
    have hinact : (handleDragEnd cfg
        (runMoves cfg (handleDragStart s0 y0).1 moves).1).1.animActive = false := by
      rw [hend]; exact hAnim2
    have hmom := runMomentum_inactive cfg 0
      (handleDragEnd cfg (runMoves cfg (handleDragStart s0 y0).1 moves).1).1 hinact
    have hend2 : (handleDragEnd cfg (runMoves cfg (handleDragStart s0 y0).1 moves).1).2
        = [Emit.commit (runMoves cfg (handleDragStart s0 y0).1 moves).1.valueRef] := by
      rw [hend]
    have hval : (handleDragEnd cfg (runMoves cfg (handleDragStart s0 y0).1 moves).1).1.valueRef
        = (runMoves cfg (handleDragStart s0 y0).1 moves).1.valueRef := by
      rw [hend]
    refine ⟨0, ?_, ?_⟩
    · rw [runSession_eq, hmom]; exact hinact
    · rw [runSession_eq, hmom]
      simp only [List.filter_append, hMovesFilter, hend2, hval]
      simp [Emit.isCommit, handleDragStart]

/-- Witness for C5 at a concrete session with the source defaults. -/
theorem drag_session_single_commit_witness :
    (0 : ℚ) < 0.88 ∧ (0.88 : ℚ) < 1 ∧
    ((∃ fuel : ℕ,
      (runSession ⟨0.005, true, 0.88⟩ ⟨false, 0, 0, 0, 0, 0, false⟩ 0 [-10, -20] fuel).1.animActive
          = false ∧
      (runSession ⟨0.005, true, 0.88⟩ ⟨false, 0, 0, 0, 0, 0, false⟩ 0 [-10, -20] fuel).2.filter
          Emit.isCommit
        = [Emit.commit (runSession ⟨0.005, true, 0.88⟩ ⟨false, 0, 0, 0, 0, 0, false⟩ 0
            [-10, -20] fuel).1.valueRef]) ∧
    ∀ (s : DragHookState) (y : ℚ),
      (handleDragMove ⟨0.005, true, 0.88⟩ s y).2.filter Emit.isCommit = []) :=
  ⟨by norm_num, by norm_num,
    drag_session_single_commit ⟨0.005, true, 0.88⟩ ⟨false, 0, 0, 0, 0, 0, false⟩ 0 [-10, -20]
      (by norm_num) (by norm_num)⟩

/-- C6: for every initial velocity and every decay factor in (0,1), the
velocity sequence `|v0| * r ^ n` falls below the stop threshold 0.0005 after
a bounded number of steps, and the momentum animation loop terminates. -/
theorem momentum_decay_terminates (v0 r : ℚ) (h0 : 0 < r) (h1 : r < 1) :
    (∃ n : ℕ, |v0| * r ^ n < 0.0005) ∧
    ∀ (cfg : DragConfig) (s : DragHookState), cfg.momentumDecay = r →
      s.velocityRef = v0 →
      ∃ fuel : ℕ, (runMomentum cfg fuel s).1.animActive = false := by
  refine ⟨exists_decay_below v0 r 0.0005 h0 h1 (by norm_num), ?_⟩
  intro cfg s hcfg hvel
  cases ha : s.animActive with
  | false => exact ⟨0, ha⟩
  | true =>
    obtain ⟨n, hn⟩ := exists_decay_below v0 r 0.0005 h0 h1 (by norm_num)
    refine ⟨n + 1, (runMomentum_settles cfg (by rw [hcfg]; exact h0) n s ha ?_).1⟩
    rw [hvel, hcfg]; exact hn

/-- Witness for C6 at the two decay factors used by the source (0.88 and
0.92) with initial velocity 1. -/
theorem momentum_decay_terminates_witness :
    ((0 : ℚ) < 0.88 ∧ (0.88 : ℚ) < 1 ∧
      ((∃ n : ℕ, |(1 : ℚ)| * 0.88 ^ n < 0.0005) ∧
       ∀ (cfg : DragConfig) (s : DragHookState), cfg.momentumDecay = 0.88 →
         s.velocityRef = 1 →
         ∃ fuel : ℕ, (runMomentum cfg fuel s).1.animActive = false)) ∧
    ((0 : ℚ) < 0.92 ∧ (0.92 : ℚ) < 1 ∧
      ((∃ n : ℕ, |(1 : ℚ)| * 0.92 ^ n < 0.0005) ∧
       ∀ (cfg : DragConfig) (s : DragHookState), cfg.momentumDecay = 0.92 →
         s.velocityRef = 1 →
         ∃ fuel : ℕ, (runMomentum cfg fuel s).1.animActive = false)) :=
  ⟨⟨by norm_num, by norm_num, momentum_decay_terminates 1 0.88 (by norm_num) (by norm_num)⟩,
   ⟨by norm_num, by norm_num, momentum_decay_terminates 1 0.92 (by norm_num) (by norm_num)⟩⟩

/- ### Association-list model of the JS Map objects used by the source -/

/-- JS `Map.get`: the value stored under the key, if any. -/
def mapGet : List (String × ℝ) → String → Option ℝ
  | [], _ => none
  | p :: t, k => if p.1 = k then some p.2 else mapGet t k

/-- JS `Map.set`: update the entry in place when the key is present,
otherwise append it (JS Maps preserve insertion order). -/
def mapSet : List (String × ℝ) → String → ℝ → List (String × ℝ)
  | [], k, v => [(k, v)]
  | p :: t, k, v => if p.1 = k then (k, v) :: t else p :: mapSet t k v

/-- JS `Map.delete`.  A JS Map never holds duplicate keys, so removing every
matching entry coincides with removing the one entry. -/
def mapDelete : List (String × ℝ) → String → List (String × ℝ)
  | [], _ => []
  | p :: t, k => if p.1 = k then mapDelete t k else p :: mapDelete t k

lemma mapGet_mapSet_self (m : List (String × ℝ)) (k : String) (v : ℝ) :
    mapGet (mapSet m k v) k = some v := by
  induction m with
  | nil => simp [mapGet, mapSet]
  | cons p t ih => by_cases h : p.1 = k <;> simp [mapGet, mapSet, h, ih]

lemma mapDelete_idem (m : List (String × ℝ)) (k : String) :
    mapDelete (mapDelete m k) k = mapDelete m k := by
  induction m with
  | nil => rfl
  | cons p t ih => by_cases h : p.1 = k <;> simp [mapDelete, h, ih]

noncomputable section

/- ### Drift modulation engine (src/engine/DriftConductor.ts) -/

/-- JS `x % 1` (fractional part) for the nonnegative arguments the engine
feeds it. -/
def jsMod1 (x : ℝ) : ℝ := Int.fract x

/-- The conductor's state: `_isStarted`, whether `initialize()` created the
LFO and signal nodes, the `phaseRegistry` map, and `startTime`. -/
structure DriftState where
  isStarted : Bool
  lfoInitialized : Bool
  phaseRegistry : List (String × ℝ)
  startTime : ℝ

/-- Source `DriftConductor.initialize`: allocates the LFO once. -/
def DriftState.initLfo (s : DriftState) : DriftState :=
  if s.lfoInitialized = true then s else { s with lfoInitialized := true }

/-- Source `DriftConductor.start`: idempotent; records `startTime` once. -/
def DriftState.start (s : DriftState) (now : ℝ) : DriftState :=
  if s.isStarted = true ∨ s.lfoInitialized = false then s
  else { s with isStarted := true, startTime := now }

/-- Source `DriftConductor.stop`: halts output, keeps phase assignments. -/
def DriftState.stop (s : DriftState) : DriftState :=
  if s.isStarted = false ∨ s.lfoInitialized = false then s
  else { s with isStarted := false }

/-- Source `registerOscillator`: assign a phase on first registration
(`count * 0.33 % 1` plus jitter `rand * 0.1 - 0.05`), keep it afterwards.
`rand` stands for the `Math.random()` sample in [0, 1). -/
def registerOscillator (s : DriftState) (id : String) (rand : ℝ) : DriftState × ℝ :=
  match mapGet s.phaseRegistry id with
  | some p => (s, p)
  | none =>
    let existingCount := s.phaseRegistry.length
    let basePhase := jsMod1 ((existingCount : ℝ) * 0.33)
    let jitter := rand * 0.1 - 0.05
    let phase := jsMod1 (basePhase + jitter + 1)
    ({ s with phaseRegistry := mapSet s.phaseRegistry id phase }, phase)

/-- Source `unregisterOscillator`: drop the phase assignment. -/
def unregisterOscillator (s : DriftState) (id : String) : DriftState :=
  { s with phaseRegistry := mapDelete s.phaseRegistry id }

/-- Source `softSnapToInterval` attractor table: (center, strength). -/
def attractors : List (ℝ × ℝ) := [(0, 0.3), (5, 0.15), (-5, 0.15)]

/-- The attractor loop of `softSnapToInterval` before the runaway clamp:
subtract `strength * sign(distance) * |distance| ^ 0.7` for each attractor. -/
def softSnapPre (cents : ℝ) : ℝ :=
  attractors.foldl
    (fun acc a => acc - a.2 * Real.sign (cents - a.1) * |cents - a.1| ^ (0.7 : ℝ)) cents

/-- Source `softSnapToInterval`: attractor pulls, then clamp to [-10, 10]. -/
def softSnapToInterval (cents : ℝ) : ℝ :=
  max (-10) (min 10 (softSnapPre cents))

/-- Source `getDriftCents(id, maxCents, depthScale)`; `now` stands for
`Tone.now()`. -/
def getDriftCents (s : DriftState) (now : ℝ) (id : String) (maxCents depthScale : ℝ) : ℝ :=
  if s.isStarted = false then 0
  else
    let phaseOffset := (mapGet s.phaseRegistry id).getD 0
    let elapsed := now - s.startTime
    let frequency : ℝ := 0.02
    let basePhase := jsMod1 (elapsed * frequency)
    let adjustedPhase := jsMod1 (basePhase + phaseOffset)
    let rawValue := Real.sin (adjustedPhase * Real.pi * 2)
    let rawCents := rawValue * maxCents * depthScale
    softSnapToInterval rawCents

/-- Circular distance between two phases measured modulo 1. -/
def circDist (a b : ℝ) : ℝ := min |a - b| (1 - |a - b|)

/-- A started conductor with an empty phase registry. -/
def driftStartedEmpty : DriftState :=
  { isStarted := true, lfoInitialized := true, phaseRegistry := [], startTime := 0 }

end

lemma jsMod1_eq_self {x : ℝ} (h0 : 0 ≤ x) (h1 : x < 1) : jsMod1 x = x :=
  Int.fract_eq_self.mpr ⟨h0, h1⟩

/-- The attractor loop written out over the three attractors. -/
lemma softSnapPre_eq (c : ℝ) :
    softSnapPre c
      = c - 0.3 * Real.sign c * |c| ^ (0.7 : ℝ)
          - 0.15 * Real.sign (c - 5) * |c - 5| ^ (0.7 : ℝ)
          - 0.15 * Real.sign (c + 5) * |c + 5| ^ (0.7 : ℝ) := by
  simp only [softSnapPre, attractors, List.foldl]
  ring_nf

lemma softSnap_five_bounds : 2 < softSnapToInterval 5 ∧ softSnapToInterval 5 < 5 := by
  have h5lt : (5 : ℝ) ^ (0.7 : ℝ) < 5 := by
    calc (5 : ℝ) ^ (0.7 : ℝ) < (5 : ℝ) ^ (1 : ℝ) :=
          Real.rpow_lt_rpow_of_exponent_lt (by norm_num) (by norm_num)
      _ = 5 := Real.rpow_one 5
  have h10lt : (10 : ℝ) ^ (0.7 : ℝ) < 10 := by
    calc (10 : ℝ) ^ (0.7 : ℝ) < (10 : ℝ) ^ (1 : ℝ) :=
          Real.rpow_lt_rpow_of_exponent_lt (by norm_num) (by norm_num)
      _ = 10 := Real.rpow_one 10
  have h5pos : (0 : ℝ) < (5 : ℝ) ^ (0.7 : ℝ) := Real.rpow_pos_of_pos (by norm_num) _
  have h10pos : (0 : ℝ) < (10 : ℝ) ^ (0.7 : ℝ) := Real.rpow_pos_of_pos (by norm_num) _
  have hpre : softSnapPre 5 = 5 - 0.3 * (5 : ℝ) ^ (0.7 : ℝ) - 0.15 * (10 : ℝ) ^ (0.7 : ℝ) := by
    rw [softSnapPre_eq]
    rw [Real.sign_of_pos (by norm_num : (0 : ℝ) < 5)]
    rw [show (5 : ℝ) - 5 = 0 by norm_num, Real.sign_zero]
    rw [show (5 : ℝ) + 5 = 10 by norm_num, Real.sign_of_pos (by norm_num : (0 : ℝ) < 10)]
    rw [abs_of_pos (by norm_num : (0 : ℝ) < 5), abs_of_pos (by norm_num : (0 : ℝ) < 10)]
    ring
  have hlo : 2 < softSnapPre 5 := by rw [hpre]; nlinarith
  have hhi : softSnapPre 5 < 5 := by rw [hpre]; nlinarith
  have hclamp : softSnapToInterval 5 = softSnapPre 5 := by
    unfold softSnapToInterval
    rw [min_eq_right (le_of_lt (lt_trans hhi (by norm_num)))]
    rw [max_eq_right (le_of_lt (lt_trans (by norm_num) hlo))]
  rw [hclamp]
  exact ⟨hlo, hhi⟩

/-- C3 counterexample: with the engine started (start time 0) and nothing
registered, querying drift for an unknown id at time 12.5 s does not return
the neutral value 0 — the id falls back to phase offset 0 and the query
returns the snapped value of a full-amplitude sample. -/
theorem drift_unregistered_query_nonzero :
    getDriftCents driftStartedEmpty 12.5 "unknown-id" 5 1 ≠ 0 := by
  have hval : getDriftCents driftStartedEmpty 12.5 "unknown-id" 5 1 = softSnapToInterval 5 := by
    unfold getDriftCents
    simp only [driftStartedEmpty, mapGet, Option.getD_none, Bool.true_eq_false, if_false]
    rw [show ((12.5 : ℝ) - 0) * 0.02 = 0.25 by norm_num]
    have hj : jsMod1 (0.25 : ℝ) = 0.25 := jsMod1_eq_self (by norm_num) (by norm_num)
    rw [hj, show (0.25 : ℝ) + 0 = 0.25 by norm_num, hj]
    rw [show (0.25 : ℝ) * Real.pi * 2 = Real.pi / 2 by ring]
    rw [Real.sin_pi_div_two]
    norm_num
  rw [hval]
  exact ne_of_gt (lt_trans (by norm_num) softSnap_five_bounds.1)

/-- C3 amended: querying drift for an unregistered id never fails; it falls
back to phase offset 0, returning exactly what a registered oscillator with
phase offset 0 would get, and returns 0 whenever the engine is stopped. -/
theorem drift_unregistered_fallback_phase0 (s : DriftState) (now : ℝ) (id : String)
    (maxCents depthScale : ℝ) (h : mapGet s.phaseRegistry id = none) :
    getDriftCents s now id maxCents depthScale
      = getDriftCents { s with phaseRegistry := (id, 0) :: s.phaseRegistry }
          now id maxCents depthScale
    ∧ (s.isStarted = false → getDriftCents s now id maxCents depthScale = 0) := by
  constructor
  · unfold getDriftCents
    simp [h, mapGet]
  · intro hs
    unfold getDriftCents
    simp [hs]

/-- Subadditivity of `x ^ p` on nonnegative reals for `p` in [0, 1]. -/
lemma rpow_add_le_add_rpow_real (a b p : ℝ) (ha : 0 ≤ a) (hb : 0 ≤ b)
    (hp : 0 ≤ p) (hp1 : p ≤ 1) : (a + b) ^ p ≤ a ^ p + b ^ p := by
  have key := NNReal.rpow_add_le_add_rpow a.toNNReal b.toNNReal hp hp1
  have h2 := NNReal.coe_le_coe.2 key
  rw [NNReal.coe_rpow, NNReal.coe_add, NNReal.coe_add, NNReal.coe_rpow, NNReal.coe_rpow,
    Real.coe_toNNReal a ha, Real.coe_toNNReal b hb] at h2
  exact h2

lemma two_rpow_le : (2 : ℝ) ^ (0.7 : ℝ) ≤ 1.63 := by
  have hpow : ((2 : ℝ) ^ (0.7 : ℝ)) ^ (10 : ℕ) = 128 := by
    rw [← Real.rpow_natCast ((2 : ℝ) ^ (0.7 : ℝ)) 10,
      ← Real.rpow_mul (by norm_num : (0 : ℝ) ≤ 2)]
    rw [show (0.7 : ℝ) * (10 : ℕ) = ((7 : ℕ) : ℝ) by norm_num, Real.rpow_natCast]
    norm_num
  refine le_of_pow_le_pow_left₀ (by norm_num : (10 : ℕ) ≠ 0) (by norm_num) ?_
  rw [hpow]
  norm_num

lemma inv64_rpow_gt : (0.2725 : ℝ) < (1/64 : ℝ) ^ (0.3 : ℝ) := by
  have h0 : (0 : ℝ) ≤ (1/64 : ℝ) ^ (0.3 : ℝ) := (Real.rpow_pos_of_pos (by norm_num) _).le
  have hpow : ((1/64 : ℝ) ^ (0.3 : ℝ)) ^ (10 : ℕ) = 1/262144 := by
    rw [← Real.rpow_natCast ((1/64 : ℝ) ^ (0.3 : ℝ)) 10,
      ← Real.rpow_mul (by norm_num : (0 : ℝ) ≤ 1/64)]
    rw [show (0.3 : ℝ) * (10 : ℕ) = ((3 : ℕ) : ℝ) by norm_num, Real.rpow_natCast]
    norm_num
  refine lt_of_pow_lt_pow_left₀ 10 h0 ?_
  rw [hpow]
  norm_num

/-- On (0, 5) the attractor loop strictly decreases the value. -/
lemma softSnapPre_pos_upper (x : ℝ) (hx0 : 0 < x) (hx5 : x < 5) : softSnapPre x < x := by
  have hsx : Real.sign x = 1 := Real.sign_of_pos hx0
  have hs5 : Real.sign (x - 5) = -1 := Real.sign_of_neg (by linarith)
  have hsp : Real.sign (x + 5) = 1 := Real.sign_of_pos (by linarith)
  have hax : |x| = x := abs_of_pos hx0
  have ha5 : |x - 5| = 5 - x := by rw [abs_of_neg (by linarith : x - 5 < 0)]; ring
  have hap : |x + 5| = x + 5 := abs_of_pos (by linarith)
  have hxpow : (0 : ℝ) < x ^ (0.7 : ℝ) := Real.rpow_pos_of_pos hx0 _
  have hmono : (5 - x) ^ (0.7 : ℝ) ≤ (x + 5) ^ (0.7 : ℝ) :=
    Real.rpow_le_rpow (by linarith) (by linarith) (by norm_num)
  rw [softSnapPre_eq, hsx, hs5, hsp, hax, ha5, hap]
  nlinarith [hxpow, hmono]

/-- On [1/64, 5) the attractor loop does not overshoot below the negated
input. -/
lemma softSnapPre_pos_lower (x : ℝ) (hx64 : 1/64 ≤ x) (hx5 : x < 5) : -x < softSnapPre x := by
  have hx0 : (0 : ℝ) < x := lt_of_lt_of_le (by norm_num) hx64
  have hsx : Real.sign x = 1 := Real.sign_of_pos hx0
  have hs5 : Real.sign (x - 5) = -1 := Real.sign_of_neg (by linarith)
  have hsp : Real.sign (x + 5) = 1 := Real.sign_of_pos (by linarith)
  have hax : |x| = x := abs_of_pos hx0
  have ha5 : |x - 5| = 5 - x := by rw [abs_of_neg (by linarith : x - 5 < 0)]; ring
  have hap : |x + 5| = x + 5 := abs_of_pos (by linarith)
  have hsub : (x + 5) ^ (0.7 : ℝ) ≤ (5 - x) ^ (0.7 : ℝ) + (2 * x) ^ (0.7 : ℝ) := by
    have h := rpow_add_le_add_rpow_real (5 - x) (2 * x) 0.7
      (by linarith) (by linarith) (by norm_num) (by norm_num)
    rw [show (5 - x) + 2 * x = x + 5 by ring] at h
    exact h
  have hmul : (2 * x) ^ (0.7 : ℝ) = (2 : ℝ) ^ (0.7 : ℝ) * x ^ (0.7 : ℝ) :=
    Real.mul_rpow (by norm_num) (le_of_lt hx0)
  have h2b : (2 : ℝ) ^ (0.7 : ℝ) ≤ 1.63 := two_rpow_le
  have hxpow : (0 : ℝ) < x ^ (0.7 : ℝ) := Real.rpow_pos_of_pos hx0 _
  have hsplit : x = x ^ (0.3 : ℝ) * x ^ (0.7 : ℝ) := by
    rw [← Real.rpow_add hx0]
    norm_num
  have hx03 : (0.2725 : ℝ) < x ^ (0.3 : ℝ) :=
    lt_of_lt_of_le inv64_rpow_gt (Real.rpow_le_rpow (by norm_num) hx64 (by norm_num))
  rw [softSnapPre_eq, hsx, hs5, hsp, hax, ha5, hap]
  nlinarith [hsub, hmul, h2b, hxpow, hsplit, hx03]

/-- The attractor loop is odd. -/
lemma softSnapPre_neg (c : ℝ) : softSnapPre (-c) = - softSnapPre c := by
  rw [softSnapPre_eq, softSnapPre_eq]
  rw [show (-c - 5 : ℝ) = -(c + 5) by ring, show (-c + 5 : ℝ) = -(c - 5) by ring]
  rw [Real.sign_neg, Real.sign_neg, Real.sign_neg, abs_neg, abs_neg, abs_neg]
  ring

/-- The runaway clamp keeps a value strictly inside (-x, x) when the
pre-clamp value is, for x below the clamp bound. -/
lemma clamp_abs_lt {r x : ℝ} (hlo : -x < r) (hhi : r < x) (hx5 : x < 5) :
    |max (-10) (min 10 r)| < x := by
  have h1 : min 10 r = r := min_eq_right (by linarith)
  have h2 : max (-10) r = r := max_eq_right (by linarith)
  rw [h1, h2]
  exact abs_lt.mpr ⟨hlo, hhi⟩

/-- C4 amended: with depthScale = 1 and maxCents = 5, the soft-snap output is
strictly closer to 0 than the input for every raw value with
1/64 ≤ |raw| < 5.  (For smaller nonzero |raw| the unison pull overshoots
past 0 by more than |raw|, see the counterexample.) -/
theorem softsnap_contracts_toward_zero (raw : ℝ) (h1 : 1/64 ≤ |raw|) (h2 : |raw| < 5) :
    |softSnapToInterval raw| < |raw| := by
  rcases lt_trichotomy raw 0 with hneg | hzero | hpos
  · have hx : 1/64 ≤ -raw := by rwa [abs_of_neg hneg] at h1
    have hx5 : -raw < 5 := by rwa [abs_of_neg hneg] at h2
    have hup := softSnapPre_pos_upper (-raw) (by linarith) hx5
    have hlo := softSnapPre_pos_lower (-raw) hx hx5
    have hodd : softSnapPre raw = - softSnapPre (-raw) := by
      rw [← softSnapPre_neg (-raw), neg_neg]
    unfold softSnapToInterval
    rw [hodd, abs_of_neg hneg]
    exact clamp_abs_lt (by linarith) (by linarith) hx5
  · exfalso
    rw [hzero] at h1
    norm_num at h1
  · have hx : 1/64 ≤ raw := by rwa [abs_of_pos hpos] at h1
    have hx5 : raw < 5 := by rwa [abs_of_pos hpos] at h2
    unfold softSnapToInterval
    rw [abs_of_pos hpos]
    exact clamp_abs_lt (softSnapPre_pos_lower raw hx hx5)
      (softSnapPre_pos_upper raw (by linarith) hx5) hx5

/-- Witness for the amended C4 at raw = 1. -/
theorem softsnap_contracts_toward_zero_witness :
    ((1 : ℝ)/64 ≤ |(1 : ℝ)| ∧ |(1 : ℝ)| < 5) ∧ |softSnapToInterval 1| < |(1 : ℝ)| :=
  ⟨⟨by norm_num, by norm_num⟩,
    softsnap_contracts_toward_zero 1 (by norm_num) (by norm_num)⟩

lemma eps_rpow_val : ((1/1024 : ℝ)) ^ (0.7 : ℝ) = 1/128 := by
  have h : (1/1024 : ℝ) = (2 : ℝ) ^ (-10 : ℝ) := by
    rw [Real.rpow_neg (by norm_num), show ((10 : ℝ)) = ((10 : ℕ) : ℝ) by norm_num,
      Real.rpow_natCast]
    norm_num
  rw [h, ← Real.rpow_mul (by norm_num : (0 : ℝ) ≤ 2)]
  rw [show (-10 : ℝ) * 0.7 = -((7 : ℕ) : ℝ) by norm_num]
  rw [Real.rpow_neg (by norm_num), Real.rpow_natCast]
  norm_num

/-- C4 counterexample: raw = 1/1024 lies in the claimed domain 0 < |raw| < 5,
yet the soft-snap output is strictly farther from 0 than the input: the
unison pull 0.3 * (1/1024) ^ 0.7 = 0.3/128 exceeds 2/1024. -/
theorem softsnap_overshoot_counterexample :
    0 < (1/1024 : ℝ) ∧ (1/1024 : ℝ) < 5 ∧
    (1/1024 : ℝ) < |softSnapToInterval (1/1024)| := by
  refine ⟨by norm_num, by norm_num, ?_⟩
  have hs1 : Real.sign (1/1024 : ℝ) = 1 := Real.sign_of_pos (by norm_num)
  have hs2 : Real.sign ((1/1024 : ℝ) - 5) = -1 := Real.sign_of_neg (by norm_num)
  have hs3 : Real.sign ((1/1024 : ℝ) + 5) = 1 := Real.sign_of_pos (by norm_num)
  have ha1 : |(1/1024 : ℝ)| = 1/1024 := abs_of_pos (by norm_num)
  have ha2 : |(1/1024 : ℝ) - 5| = 5 - 1/1024 := by
    rw [abs_of_neg (by norm_num : (1/1024 : ℝ) - 5 < 0)]; ring
  have ha3 : |(1/1024 : ℝ) + 5| = 1/1024 + 5 := abs_of_pos (by norm_num)
  have hmono : (5 - 1/1024 : ℝ) ^ (0.7 : ℝ) ≤ (1/1024 + 5 : ℝ) ^ (0.7 : ℝ) :=
    Real.rpow_le_rpow (by norm_num) (by norm_num) (by norm_num)
  have hpre : softSnapPre (1/1024) < -(1/1024) := by
    rw [softSnapPre_eq, hs1, hs2, hs3, ha1, ha2, ha3, eps_rpow_val]
    nlinarith [hmono]
  have hmin : min 10 (softSnapPre (1/1024)) = softSnapPre (1/1024) :=
    min_eq_right (by nlinarith [hpre])
  have hout : softSnapToInterval (1/1024) < -(1/1024) := by
    unfold softSnapToInterval
    rw [hmin]
    exact max_lt (by norm_num) hpre
  rw [abs_of_neg (by nlinarith [hout] : softSnapToInterval (1/1024) < 0)]
  linarith

/-- Witness for the amended C3 at the concrete unregistered query. -/
theorem drift_unregistered_fallback_phase0_witness :
    mapGet driftStartedEmpty.phaseRegistry "unknown-id" = none ∧
    (getDriftCents driftStartedEmpty 12.5 "unknown-id" 5 1
      = getDriftCents
          { driftStartedEmpty with phaseRegistry := ("unknown-id", 0) :: driftStartedEmpty.phaseRegistry }
          12.5 "unknown-id" 5 1
    ∧ (driftStartedEmpty.isStarted = false →
        getDriftCents driftStartedEmpty 12.5 "unknown-id" 5 1 = 0)) :=
  ⟨rfl, drift_unregistered_fallback_phase0 driftStartedEmpty 12.5 "unknown-id" 5 1 rfl⟩

/-- The phase assigned to the `count`-th fresh registration given the
random sample `rand`: `((count * 0.33) % 1 + (rand * 0.1 - 0.05) + 1) % 1`. -/
noncomputable def freshPhase (count : ℕ) (rand : ℝ) : ℝ :=
  jsMod1 (jsMod1 ((count : ℝ) * 0.33) + (rand * 0.1 - 0.05) + 1)

/-- A fresh registration stores and returns `freshPhase count rand`. -/
lemma registerOscillator_fresh (s : DriftState) (id : String) (rand : ℝ)
    (h : mapGet s.phaseRegistry id = none) :
    registerOscillator s id rand
      = ({ s with phaseRegistry := mapSet s.phaseRegistry id (freshPhase s.phaseRegistry.length rand) }, freshPhase s.phaseRegistry.length rand) := by
  unfold registerOscillator freshPhase
  rw [h]

lemma freshPhase_zero (rand : ℝ) :
    freshPhase 0 rand = jsMod1 (0 + (rand * 0.1 - 0.05) + 1) := by
  unfold freshPhase
  rw [show (((0 : ℕ) : ℝ)) * 0.33 = 0 by norm_num]
  rw [jsMod1_eq_self le_rfl (by norm_num)]

lemma freshPhase_one (rand : ℝ) :
    freshPhase 1 rand = jsMod1 (0.33 + (rand * 0.1 - 0.05) + 1) := by
  unfold freshPhase
  rw [show (((1 : ℕ) : ℝ)) * 0.33 = 0.33 by norm_num]
  have hin : jsMod1 (0.33 : ℝ) = 0.33 := jsMod1_eq_self (by norm_num) (by norm_num)
  rw [hin]

lemma freshPhase_two (rand : ℝ) :
    freshPhase 2 rand = jsMod1 (0.66 + (rand * 0.1 - 0.05) + 1) := by
  unfold freshPhase
  rw [show (((2 : ℕ) : ℝ)) * 0.33 = 0.66 by norm_num]
  have hin : jsMod1 (0.66 : ℝ) = 0.66 := jsMod1_eq_self (by norm_num) (by norm_num)
  rw [hin]

/-- Adding a jitter in [-0.05, 0.05) and renormalizing into [0, 1) moves a
phase by at most 0.05 in circular distance. -/
lemma circDist_fract_jitter (b j : ℝ) (hb0 : 0 ≤ b) (hb1 : b < 1)
    (hj0 : -(0.05) ≤ j) (hj1 : j < 0.05) :
    circDist (jsMod1 (b + j + 1)) b ≤ 0.05 := by
  have hone : jsMod1 (b + j + 1) = Int.fract (b + j) := by
    unfold jsMod1
    rw [show (b + j + 1 : ℝ) = (b + j) + ((1 : ℤ) : ℝ) by push_cast; ring]
    exact Int.fract_add_int (b + j) 1
  rcases lt_or_le (b + j) 0 with hneg | hpos
  · have hfr : Int.fract (b + j) = b + j + 1 := by
      rw [Int.fract_eq_iff]
      exact ⟨by linarith, by linarith, ⟨-1, by push_cast; ring⟩⟩
    rw [hone, hfr]
    unfold circDist
    rw [show (b + j + 1 - b : ℝ) = j + 1 by ring, abs_of_pos (by linarith : (0:ℝ) < j + 1)]
    rw [show (1 : ℝ) - (j + 1) = -j by ring]
    exact le_trans (min_le_right _ _) (by linarith)
  · rcases lt_or_le (b + j) 1 with hlt | hge
    · have hfr : Int.fract (b + j) = b + j := Int.fract_eq_self.mpr ⟨hpos, hlt⟩
      rw [hone, hfr]
      unfold circDist
      rw [show (b + j - b : ℝ) = j by ring]
      exact le_trans (min_le_left _ _) (abs_le.mpr ⟨by linarith, by linarith⟩)
    · have hfr : Int.fract (b + j) = b + j - 1 := by
        rw [Int.fract_eq_iff]
        exact ⟨by linarith, by linarith, ⟨1, by push_cast; ring⟩⟩
      rw [hone, hfr]
      unfold circDist
      rw [show (b + j - 1 - b : ℝ) = -(1 - j) by ring, abs_neg,
        abs_of_pos (by linarith : (0:ℝ) < 1 - j)]
      rw [show (1 : ℝ) - (1 - j) = j by ring]
      exact le_trans (min_le_right _ _) (by linarith)

/-- The assigned phase lies within 0.05 (circularly) of the deterministic
base phase whenever the random sample lies in [0, 1). -/
lemma phase_close_to_base (base rand : ℝ) (hb0 : 0 ≤ base) (hb1 : base < 1)
    (hr0 : 0 ≤ rand) (hr1 : rand < 1) :
    circDist (jsMod1 (base + (rand * 0.1 - 0.05) + 1)) base ≤ 0.05 :=
  circDist_fract_jitter base (rand * 0.1 - 0.05) hb0 hb1 (by linarith) (by linarith)

/-- C9 amended: for all random samples in [0, 1), the first three distinct
oscillators registered receive phase offsets within the jitter bound 0.05
(circular distance) of the nominal positions 0, 0.33 and 0.66 — multiples of
0.33 rather than exact thirds. -/
theorem phase_spacing_within_jitter (s : DriftState) (a b c : String) (ra rb rc : ℝ)
    (hreg : s.phaseRegistry = []) (hab : a ≠ b) (hac : a ≠ c) (hbc : b ≠ c)
    (hra0 : 0 ≤ ra) (hra1 : ra < 1) (hrb0 : 0 ≤ rb) (hrb1 : rb < 1)
    (hrc0 : 0 ≤ rc) (hrc1 : rc < 1) :
    circDist (registerOscillator s a ra).2 0 ≤ 0.05 ∧
    circDist (registerOscillator (registerOscillator s a ra).1 b rb).2 0.33 ≤ 0.05 ∧
    circDist (registerOscillator (registerOscillator
      (registerOscillator s a ra).1 b rb).1 c rc).2 0.66 ≤ 0.05 := by
  have h1 := registerOscillator_fresh s a ra (by rw [hreg]; rfl)
  rw [hreg] at h1
  simp only [List.length_nil] at h1
  have hget1 : mapGet (registerOscillator s a ra).1.phaseRegistry b = none := by
    rw [h1]
    show mapGet (mapSet [] a (freshPhase 0 ra)) b = none
    rw [mapSet, mapGet, if_neg hab]
    rfl
  have h2 := registerOscillator_fresh (registerOscillator s a ra).1 b rb hget1
  have hlen1 : (registerOscillator s a ra).1.phaseRegistry.length = 1 := by
    rw [h1]
    show (mapSet [] a (freshPhase 0 ra)).length = 1
    rw [mapSet]
    rfl
  rw [hlen1] at h2
  have hget2 : mapGet
      (registerOscillator (registerOscillator s a ra).1 b rb).1.phaseRegistry c = none := by
    rw [h2]
    show mapGet (mapSet (registerOscillator s a ra).1.phaseRegistry b (freshPhase 1 rb)) c
      = none
    rw [h1]
    show mapGet (mapSet (mapSet [] a (freshPhase 0 ra)) b (freshPhase 1 rb)) c = none
    rw [mapSet, mapSet, if_neg hab, mapGet, if_neg hac, mapSet, mapGet, if_neg hbc]
    rfl
  have h3 := registerOscillator_fresh
    (registerOscillator (registerOscillator s a ra).1 b rb).1 c rc hget2
  have hlen2 : (registerOscillator (registerOscillator s a ra).1 b rb).1.phaseRegistry.length
      = 2 := by
    rw [h2]
    show (mapSet (registerOscillator s a ra).1.phaseRegistry b (freshPhase 1 rb)).length = 2
    rw [h1]
    show (mapSet (mapSet [] a (freshPhase 0 ra)) b (freshPhase 1 rb)).length = 2
    rw [mapSet, mapSet, if_neg hab]
    rfl
  rw [hlen2] at h3
  refine ⟨?_, ?_, ?_⟩
  · rw [h1]
    show circDist (freshPhase 0 ra) 0 ≤ 0.05
    rw [freshPhase_zero]
    exact phase_close_to_base 0 ra le_rfl (by norm_num) hra0 hra1
  · rw [h2]
    show circDist (freshPhase 1 rb) 0.33 ≤ 0.05
    rw [freshPhase_one]
    exact phase_close_to_base 0.33 rb (by norm_num) (by norm_num) hrb0 hrb1
  · rw [h3]
    show circDist (freshPhase 2 rc) 0.66 ≤ 0.05
    rw [freshPhase_two]
    exact phase_close_to_base 0.66 rc (by norm_num) (by norm_num) hrc0 hrc1

/-- Witness for the amended C9 at concrete ids and random samples. -/
theorem phase_spacing_within_jitter_witness :
    (driftStartedEmpty.phaseRegistry = [] ∧ ("a" : String) ≠ "b" ∧ ("a" : String) ≠ "c" ∧
      ("b" : String) ≠ "c" ∧ (0 : ℝ) ≤ 1/2 ∧ (1/2 : ℝ) < 1) ∧
    (circDist (registerOscillator driftStartedEmpty "a" (1/2)).2 0 ≤ 0.05 ∧
     circDist (registerOscillator
       (registerOscillator driftStartedEmpty "a" (1/2)).1 "b" (1/2)).2 0.33 ≤ 0.05 ∧
     circDist (registerOscillator (registerOscillator
       (registerOscillator driftStartedEmpty "a" (1/2)).1 "b" (1/2)).1 "c" (1/2)).2 0.66
       ≤ 0.05) :=
  ⟨⟨rfl, by decide, by decide, by decide, by norm_num, by norm_num⟩,
    phase_spacing_within_jitter driftStartedEmpty "a" "b" "c" (1/2) (1/2) (1/2)
      rfl (by decide) (by decide) (by decide) (by norm_num) (by norm_num)
      (by norm_num) (by norm_num) (by norm_num) (by norm_num)⟩

/-- C9 counterexample: with random sample 0.01 (jitter -0.049), the second
oscillator registered receives phase 0.281, which is farther than 0.05 from
the nominal third 1/3 — the deterministic base is 0.33, not 1/3. -/
theorem phase_spacing_third_counterexample :
    (0 : ℝ) ≤ 1/100 ∧ (1/100 : ℝ) < 1 ∧
    0.05 < circDist
      (registerOscillator (registerOscillator driftStartedEmpty "a" (1/2)).1 "b" (1/100)).2
      (1/3) := by
  refine ⟨by norm_num, by norm_num, ?_⟩
  have h1 := registerOscillator_fresh driftStartedEmpty "a" (1/2) rfl
  have hget1 : mapGet (registerOscillator driftStartedEmpty "a" (1/2)).1.phaseRegistry "b"
      = none := by
    rw [h1]
    show mapGet (mapSet [] "a" (freshPhase 0 (1/2))) "b" = none
    rw [mapSet, mapGet, if_neg (by decide : ¬ ("a" = "b"))]
    rfl
  have h2 := registerOscillator_fresh (registerOscillator driftStartedEmpty "a" (1/2)).1
    "b" (1/100) hget1
  have hlen1 : (registerOscillator driftStartedEmpty "a" (1/2)).1.phaseRegistry.length
      = 1 := by
    rw [h1]
    show (mapSet [] "a" (freshPhase 0 (1/2))).length = 1
    rw [mapSet]
    rfl
  rw [hlen1] at h2
  have hphase : freshPhase 1 (1/100) = 0.281 := by
    rw [freshPhase_one]
    unfold jsMod1
    rw [show (0.33 + (1/100 * 0.1 - 0.05) + 1 : ℝ) = 0.281 + ((1 : ℤ) : ℝ) by
      push_cast; norm_num]
    rw [Int.fract_add_int]
    exact Int.fract_eq_self.mpr (by norm_num)
  rw [h2]
  show (0.05 : ℝ) < circDist (freshPhase 1 (1/100)) (1/3)
  rw [hphase]
  unfold circDist
  rw [abs_of_neg (by norm_num : (0.281 : ℝ) - 1/3 < 0)]
  rw [min_eq_left (by norm_num)]
  norm_num


noncomputable section

/- ### Module lifecycle contract (ModuleInstance base class) and the
reference module (DroneOscillator) -/

/-- Clamp to [0, 1] over the reals
(source `Math.max(0, Math.min(1, value))`). -/
def clamp01R (v : ℝ) : ℝ := max 0 (min 1 v)

/-- One parameter definition: name, default normalized value and the
normalized-to-engineering-unit mapping.  Labels and display formatting are
not modelled; no claim mentions them. -/
structure ParamConfig where
  name : String
  defaultValue : ℝ
  map : ℝ → ℝ

/-- Source `mapPitch`: piecewise-linear interpolation over the bass curve.
A JS out-of-range array read (reachable only for inputs outside [0, 1],
which `setParamImmediate` never passes) is modelled as the default 0. -/
def mapPitch (value : ℝ) : ℝ :=
  let curve : List ℝ := [40, 55, 70, 85, 100, 120, 145, 175, 200]
  let index := value * ((curve.length : ℝ) - 1)
  let lower := ⌊index⌋
  let upper := ⌈index⌉
  let t := index - (lower : ℝ)
  if lower = upper then curve.getD lower.toNat 0
  else curve.getD lower.toNat 0 + t * (curve.getD upper.toNat 0 - curve.getD lower.toNat 0)

/-- Source `mapWarmth`: `200 * (3000 / 200) ^ value`. -/
def mapWarmth (value : ℝ) : ℝ := 200 * (3000 / 200) ^ value

/-- The declared parameters of `DRONE_OSCILLATOR_CONFIG`:
pitch (default 0.25), warmth (default 0.4), drift (default 0.3, identity
mapping). -/
def droneParams : List ParamConfig :=
  [⟨"pitch", 0.25, mapPitch⟩, ⟨"warmth", 0.4, mapWarmth⟩, ⟨"drift", 0.3, fun v => v⟩]

/-- Base-class state of `ModuleInstance`: the owned node list (by name), the
`_isDisposed` and `_isPowered` flags and the normalized parameter map. -/
structure ModuleState where
  nodes : List String
  isDisposed : Bool
  isPowered : Bool
  paramValues : List (String × ℝ)

/-- The parameter map built by the `ModuleInstance` constructor: one entry
per declared parameter, at its default. -/
def initialParamValues (params : List ParamConfig) : List (String × ℝ) :=
  params.map (fun p => (p.name, p.defaultValue))

/-- A `ModuleInstance` as constructed: no nodes, not disposed, powered,
defaults in the map. -/
def newModuleState (params : List ParamConfig) : ModuleState where
  nodes := []
  isDisposed := false
  isPowered := true
  paramValues := initialParamValues params

/-- Source `ModuleInstance.dispose`: early-return when already disposed;
otherwise set the flag, tear the nodes down in reverse order swallowing
teardown errors, clear the node list and the parameter map. -/
def ModuleState.dispose (s : ModuleState) : ModuleState :=
  if s.isDisposed then s
  else { s with isDisposed := true, nodes := [], paramValues := [] }

/-- Source `ModuleInstance.getParam`: map lookup with default 0. -/
def ModuleState.getParam (s : ModuleState) (name : String) : ℝ :=
  (mapGet s.paramValues name).getD 0

/-- Source `ModuleInstance.getAllParams`: the map copied entry by entry into
a record, modelled as the entry list itself. -/
def ModuleState.getAllParams (s : ModuleState) : List (String × ℝ) :=
  s.paramValues

/-- `DroneOscillator` state: the inherited base state plus the audio-node
fields the reference module drives (oscillator frequency targets, filter
cutoff target, output gain target), whether `initialize()` created the
nodes, the drift-animation handle, and the two `setTimeout` callbacks of
`stop()` and `dispose()` modelled as pending flags fired by
`fireDroneTimers`. -/
structure DroneState where
  id : String
  mod : ModuleState
  initialized : Bool
  baseFrequency : ℝ
  osc1Freq : ℝ
  osc2Freq : ℝ
  osc3Freq : ℝ
  filterFreq : ℝ
  outputGain : ℝ
  oscsRunning : Bool
  driftAnimActive : Bool
  pendingOscStop : Bool
  pendingSuperDispose : Bool

/-- `new DroneOscillator(id)`: the base constructor with the drone config;
audio nodes do not exist yet (`baseFrequency` starts at 70). -/
def droneNew (id : String) : DroneState where
  id := id
  mod := newModuleState droneParams
  initialized := false
  baseFrequency := 70
  osc1Freq := 70
  osc2Freq := 70
  osc3Freq := 140
  filterFreq := 0
  outputGain := 0
  oscsRunning := false
  driftAnimActive := false
  pendingOscStop := false
  pendingSuperDispose := false

/-- Source `DroneOscillator.initialize`: create the three oscillators (osc3
an octave up), the filter (cutoff mapped from the stored warmth), gain and
output, record the nodes for disposal, register with the drift conductor
and start the drift animation loop.  `rand` stands for the `Math.random()`
sample consumed by the registration. -/
def droneInitialize (s : DroneState) (d : DriftState) (rand : ℝ) :
    DroneState × DriftState :=
  let s1 := { s with
    initialized := true
    osc1Freq := s.baseFrequency
    osc2Freq := s.baseFrequency
    osc3Freq := s.baseFrequency * 2
    filterFreq := mapWarmth ((mapGet s.mod.paramValues "warmth").getD 0.4)
    outputGain := 0
    driftAnimActive := true
    mod := { s.mod with nodes := ["osc1", "osc2", "osc3", "filter", "gain", "output"] } }
  (s1, (registerOscillator d s.id rand).1)

/-- Source `updateOscillatorFrequencies`: no-op before `initialize`;
otherwise read the drift parameter and the conductor and retarget the
oscillator frequencies (osc3 an octave up). -/
def updateOscillatorFrequencies (d : DriftState) (now : ℝ) (s : DroneState) : DroneState :=
  if s.initialized = false then s
  else
    let driftAmount := (mapGet s.mod.paramValues "drift").getD 0.3
    let driftCents := getDriftCents d now s.id 5 driftAmount
    let driftMultiplier := (2 : ℝ) ^ (driftCents / 1200)
    let driftedFreq := s.baseFrequency * driftMultiplier
    { s with osc1Freq := driftedFreq, osc2Freq := driftedFreq, osc3Freq := driftedFreq * 2 }

/-- Source `DroneOscillator.setParamImmediate`: clamp the value, store it
into the map unconditionally, then look up the declared parameter; when
found, apply the mapped value (pitch retargets the oscillators, warmth the
filter when present, drift is only read by the animation loop).  There is
no disposed-flag check.  The function is total: no input makes it throw. -/
def setParamImmediate (d : DriftState) (now : ℝ) (s : DroneState) (name : String)
    (value : ℝ) : DroneState :=
  let clamped := clamp01R value
  let s1 :=
    { s with mod := { s.mod with paramValues := mapSet s.mod.paramValues name clamped } }
  match droneParams.find? (fun p => p.name == name) with
  | none => s1
  | some config =>
    let mappedValue := config.map clamped
    if name = "pitch" then
      updateOscillatorFrequencies d now { s1 with baseFrequency := mappedValue }
    else if name = "warmth" then
      if s1.initialized = true then { s1 with filterFreq := mappedValue } else s1
    else s1

/-- Source `DroneOscillator.start`: guard on missing nodes, start the
oscillators and fade the output gain in. -/
def droneStart (s : DroneState) : DroneState :=
  if s.initialized = false then s
  else { s with oscsRunning := true, outputGain := 1 }

/-- Source `DroneOscillator.stop`: guard on a missing output node, ramp the
output gain to 0 and schedule stopping the oscillators after the fade. -/
def droneStop (s : DroneState) : DroneState :=
  if s.initialized = false then s
  else { s with outputGain := 0, pendingOscStop := true }

/-- Source `DroneOscillator.dispose`, the synchronous part: stop the drift
animation, unregister from the conductor, begin the fade via `stop()` and
schedule `super.dispose()` 600 ms later.  It does NOT set the disposed
flag; that happens only when the deferred timer fires. -/
def droneDispose (s : DroneState) (d : DriftState) : DroneState × DriftState :=
  let s1 := { s with driftAnimActive := false }
  let d1 := unregisterOscillator d s.id
  let s2 := droneStop s1
  ({ s2 with pendingSuperDispose := true }, d1)

/-- Fire the timers scheduled by `stop()` and `dispose()`: stop the
oscillators, then run `super.dispose()`. -/
def fireDroneTimers (s : DroneState) : DroneState :=
  let s1 :=
    if s.pendingOscStop then { s with oscsRunning := false, pendingOscStop := false } else s
  if s1.pendingSuperDispose then
    { s1 with mod := s1.mod.dispose, pendingSuperDispose := false }
  else s1

/-- A disposal call followed by its deferred timer work. -/
def droneDisposeFull (p : DroneState × DriftState) : DroneState × DriftState :=
  let r := droneDispose p.1 p.2
  (fireDroneTimers r.1, r.2)

/-- A freshly created and initialized drone (id "drone-1") next to a started
conductor, as produced by the factory `createDroneOscillator`. -/
def droneFixture : DroneState × DriftState :=
  droneInitialize (droneNew "drone-1") driftStartedEmpty 0.5

end

lemma updateOscillatorFrequencies_mod (d : DriftState) (now : ℝ) (s : DroneState) :
    (updateOscillatorFrequencies d now s).mod = s.mod := by
  unfold updateOscillatorFrequencies
  split
  · rfl
  · rfl

/-- `setParamImmediate` always stores the clamped value into the map, for
declared and undeclared names alike. -/
lemma setParamImmediate_paramValues (d : DriftState) (now : ℝ) (s : DroneState)
    (name : String) (value : ℝ) :
    (setParamImmediate d now s name value).mod.paramValues
      = mapSet s.mod.paramValues name (clamp01R value) := by
  rcases hfind : droneParams.find? (fun p => p.name == name) with _ | config
  · unfold setParamImmediate
    rw [hfind]
  · unfold setParamImmediate
    simp only [hfind]
    split
    · rw [updateOscillatorFrequencies_mod]
    · split
      · split
        · rfl
        · rfl
      · rfl

lemma moduleDispose_idem (m : ModuleState) : m.dispose.dispose = m.dispose := by
  unfold ModuleState.dispose
  by_cases h : m.isDisposed = true
  · simp [h]
  · simp [h]

/-- C1: the reference module's `dispose()` does not immediately set the
disposed flag (it stays false until the 600 ms timer fires), and
`setParamImmediate` keeps writing the parameter map both during the fade
window and after the deferred `super.dispose()` has run — evaluated on a
freshly initialized `DroneOscillator`. -/
theorem dispose_does_not_block_writes :
    (droneDispose droneFixture.1 droneFixture.2).1.mod.isDisposed = false ∧
    mapGet (setParamImmediate (droneDispose droneFixture.1 droneFixture.2).2 0
        (droneDispose droneFixture.1 droneFixture.2).1 "pitch" (9/10)).mod.paramValues "pitch"
      = some (clamp01R (9/10)) ∧
    clamp01R (9/10) ≠ (0.25 : ℝ) ∧
    mapGet (droneDispose droneFixture.1 droneFixture.2).1.mod.paramValues "pitch"
      = some (0.25 : ℝ) ∧
    (fireDroneTimers (droneDispose droneFixture.1 droneFixture.2).1).mod.isDisposed = true ∧
    (setParamImmediate (droneDispose droneFixture.1 droneFixture.2).2 0
        (fireDroneTimers (droneDispose droneFixture.1 droneFixture.2).1) "pitch"
        (9/10)).mod.paramValues
      = [("pitch", clamp01R (9/10))] := by
  have hc : clamp01R (9/10) = 9/10 := by
    unfold clamp01R
    rw [min_eq_right (by norm_num), max_eq_right (by norm_num)]
  refine ⟨rfl, ?_, ?_, rfl, rfl, ?_⟩
  · rw [setParamImmediate_paramValues]
    exact mapGet_mapSet_self _ _ _
  · rw [hc]
    norm_num
  · rw [setParamImmediate_paramValues]
    rfl

/-- C2 counterexample: "bogus" is not among the declared parameters, yet
`setParamImmediate` appends it to the parameter map (it writes the map
before the declared-parameter lookup), so the map is re-keyed rather than
left unchanged. -/
theorem unknown_param_rekeys_map :
    droneParams.find? (fun p => p.name == "bogus") = none ∧
    (setParamImmediate driftStartedEmpty 0 droneFixture.1 "bogus" (1/2)).mod.paramValues
      = droneFixture.1.mod.paramValues ++ [("bogus", clamp01R (1/2))] ∧
    (setParamImmediate driftStartedEmpty 0 droneFixture.1 "bogus" (1/2)).mod.paramValues
      ≠ droneFixture.1.mod.paramValues := by
  refine ⟨rfl, ?_, ?_⟩
  · rw [setParamImmediate_paramValues]
    rfl
  · rw [setParamImmediate_paramValues]
    intro hEq
    have := congrArg List.length hEq
    simp [mapSet, droneFixture, droneInitialize, droneNew, newModuleState,
      initialParamValues, droneParams] at this

/-- C2 amended: for a name outside the declared parameters, the call does not
throw and its only effect is writing the clamped value into the parameter
map under the unknown key; no audio-node field changes. -/
theorem unknown_param_writes_map_only (d : DriftState) (now : ℝ) (s : DroneState)
    (name : String) (v : ℝ)
    (h : droneParams.find? (fun p => p.name == name) = none) :
    setParamImmediate d now s name v
      = { s with mod :=
          { s.mod with paramValues := mapSet s.mod.paramValues name (clamp01R v) } } := by
  unfold setParamImmediate
  rw [h]

/-- Witness for the amended C2 at the unknown name "bogus". -/
theorem unknown_param_writes_map_only_witness :
    droneParams.find? (fun p => p.name == "bogus") = none ∧
    setParamImmediate driftStartedEmpty 0 droneFixture.1 "bogus" (1/2)
      = { droneFixture.1 with mod :=
          { droneFixture.1.mod with paramValues := mapSet droneFixture.1.mod.paramValues "bogus" (clamp01R (1/2)) } } :=
  ⟨rfl, unknown_param_writes_map_only driftStartedEmpty 0 droneFixture.1 "bogus" (1/2) rfl⟩

/-- C7: for every declared parameter name and every input (including inputs
outside [0, 1]), `setParamImmediate` stores exactly
`clamp01(v) = max 0 (min 1 v)` in the parameter map. -/
theorem setParam_stores_clamped (d : DriftState) (now : ℝ) (s : DroneState)
    (name : String) (v : ℝ) (hname : name ∈ droneParams.map ParamConfig.name) :
    mapGet (setParamImmediate d now s name v).mod.paramValues name = some (clamp01R v)
    ∧ clamp01R v = max 0 (min 1 v) := by
  refine ⟨?_, rfl⟩
  rw [setParamImmediate_paramValues]
  exact mapGet_mapSet_self _ _ _

/-- Witness for C7 at name "pitch" and the out-of-range input 2. -/
theorem setParam_stores_clamped_witness :
    ("pitch" ∈ droneParams.map ParamConfig.name) ∧
    (mapGet (setParamImmediate driftStartedEmpty 0 droneFixture.1 "pitch" 2).mod.paramValues
        "pitch" = some (clamp01R 2)
      ∧ clamp01R 2 = max 0 (min 1 2)) :=
  ⟨by simp [droneParams], setParam_stores_clamped driftStartedEmpty 0 droneFixture.1
    "pitch" 2 (by simp [droneParams])⟩

/-- C8: disposing twice yields the same observable end state as disposing
once — empty node list, disposed flag set, no exception: the base
`ModuleInstance.dispose` is idempotent, and so is the drone's full disposal
pipeline (synchronous part plus deferred timers). -/
theorem dispose_idempotent (s : ModuleState) (p : DroneState × DriftState)
    (h : s.isDisposed = false) :
    (s.dispose.dispose = s.dispose ∧ s.dispose.nodes = [] ∧ s.dispose.isDisposed = true)
    ∧ droneDisposeFull (droneDisposeFull p) = droneDisposeFull p := by
  constructor
  · have h1 : s.dispose = { s with isDisposed := true, nodes := [], paramValues := [] } := by
      unfold ModuleState.dispose
      rw [if_neg (by simp [h])]
    exact ⟨moduleDispose_idem s, by rw [h1], by rw [h1]⟩
  · rcases p with ⟨s0, d0⟩
    by_cases hinit : s0.initialized = true
    · by_cases hstop : s0.pendingOscStop = true
      · simp [droneDisposeFull, droneDispose, droneStop, fireDroneTimers,
          unregisterOscillator, mapDelete_idem, moduleDispose_idem, hinit, hstop]
      · simp [droneDisposeFull, droneDispose, droneStop, fireDroneTimers,
          unregisterOscillator, mapDelete_idem, moduleDispose_idem, hinit, hstop]
    · by_cases hstop : s0.pendingOscStop = true
      · simp [droneDisposeFull, droneDispose, droneStop, fireDroneTimers,
          unregisterOscillator, mapDelete_idem, moduleDispose_idem, hinit, hstop]
      · simp [droneDisposeFull, droneDispose, droneStop, fireDroneTimers,
          unregisterOscillator, mapDelete_idem, moduleDispose_idem, hinit, hstop]

/-- Witness for C8 at a freshly constructed module and the initialized
drone fixture. -/
theorem dispose_idempotent_witness :
    (newModuleState droneParams).isDisposed = false ∧
    (((newModuleState droneParams).dispose.dispose = (newModuleState droneParams).dispose ∧
      (newModuleState droneParams).dispose.nodes = [] ∧
      (newModuleState droneParams).dispose.isDisposed = true)
    ∧ droneDisposeFull (droneDisposeFull droneFixture) = droneDisposeFull droneFixture) :=
  ⟨rfl, dispose_idempotent (newModuleState droneParams) droneFixture rfl⟩

/-- C10: after the base `ModuleInstance.dispose` body runs, the parameter
map is cleared along with the node list: `getAllParams` returns the empty
record and `getParam` returns 0 for every name. -/
theorem params_cleared_on_dispose (s : ModuleState) (h : s.isDisposed = false) :
    s.dispose.getAllParams = [] ∧ ∀ name : String, s.dispose.getParam name = 0 := by
  have h1 : s.dispose = { s with isDisposed := true, nodes := [], paramValues := [] } := by
    unfold ModuleState.dispose
    rw [if_neg (by simp [h])]
  constructor
  · rw [h1]
    rfl
  · intro name
    rw [h1]
    rfl

/-- Witness for C10 at a freshly constructed module. -/
theorem params_cleared_on_dispose_witness :
    (newModuleState droneParams).isDisposed = false ∧
    ((newModuleState droneParams).dispose.getAllParams = [] ∧
      ∀ name : String, (newModuleState droneParams).dispose.getParam name = 0) :=
  ⟨rfl, params_cleared_on_dispose (newModuleState droneParams) rfl⟩
